import Mathlib

/-!
# Verification of the deliveryapp database-migration CLI

Shallow embedding of `tools/cli/cli.py` (class `DatabaseCLI` and `main`).

The database is modelled as an explicit state (`DB`): the catalog of table
names and enum-type names in the `public` schema, plus the concrete rows of
the tables the commands touch (`users`, the four role-profile tables,
`menus`, `restaurant_menus`).  A connection (`Conn`) carries a committed
state and a pending state; `commit` publishes pending, `rollback` restores
committed.  Every command is a pure function from its inputs (including the
outcomes of external actions such as `connect()` succeeding, a SQL file
being readable, or the operator's typed response) to a `CmdResult`: the
boolean the Python method returns, the final committed database state, and
the trace of observable events (connection attempts, statements executed,
commits, rollbacks, disconnects) in program order.
-/

/-- One row of the `users` table. -/
structure UserRow where
  id : Nat
  username : String
  email : String
  password_hash : String
  user_type : String
deriving DecidableEq, Repr

/-- One row of the `customers` profile table. -/
structure CustomerRow where
  user_id : Nat
  full_name : String
  phone : String
deriving DecidableEq, Repr

/-- One row of the `vendors` profile table. -/
structure VendorRow where
  user_id : Nat
  business_name : String
  phone : String
  city : String
deriving DecidableEq, Repr

/-- One row of the `drivers` profile table. -/
structure DriverRow where
  user_id : Nat
  full_name : String
  phone : String
  vehicle_type : String
deriving DecidableEq, Repr

/-- One row of the `admins` profile table. -/
structure AdminRow where
  user_id : Nat
  full_name : String
  role : String
deriving DecidableEq, Repr

/-- One row of the `menus` table (`vendor_id` is nullable). -/
structure MenuRow where
  id : Nat
  name : String
  vendor_id : Option Nat
  created_at : Nat
deriving DecidableEq, Repr

/-- One row of the `restaurant_menus` association table. -/
structure RestaurantMenuRow where
  restaurant_id : Nat
  menu_id : Nat
deriving DecidableEq, Repr

/-- The database state: the `public`-schema catalog (table names as listed
by `pg_tables`, enum type names as listed by `pg_type` with `typtype = e`)
and the contents of the tables the CLI reads or writes.  `nextUserId`
models the `users.id` sequence. -/
structure DB where
  tables : List String
  enumTypes : List String
  users : List UserRow
  customers : List CustomerRow
  vendors : List VendorRow
  drivers : List DriverRow
  admins : List AdminRow
  menus : List MenuRow
  restaurant_menus : List RestaurantMenuRow
  nextUserId : Nat
deriving DecidableEq, Repr

/-- Observable events of one command invocation, in program order. -/
inductive Event where
  | connectAttempt
  | connected
  | disconnect
  | commit
  | rollback
  | stmtQuery
  | stmtBatch
  | stmtDropTable (name : String)
  | stmtDropType (name : String)
  | stmtInsert (table : String)
  | stmtDelete
  | configError
deriving DecidableEq, Repr

/-- An event that mutates database contents (as opposed to reads,
transaction control and connection management). -/
def Event.isMutation : Event → Bool
  | .stmtBatch => true
  | .stmtDropTable _ => true
  | .stmtDropType _ => true
  | .stmtInsert _ => true
  | .stmtDelete => true
  | _ => false

/-- An open connection: the last committed database state and the pending
(in-transaction) state seen by the cursor. -/
structure Conn where
  committed : DB
  pending : DB

/-- Result of one `DatabaseCLI` command: the returned boolean, the final
committed database state, and the event trace. -/
structure CmdResult where
  ok : Bool
  db : DB
  events : List Event
deriving Repr

/-- A SQL file handed to `execute_sql_file`: whether `open(filepath)`
succeeds, and the batch's effect on the pending state (`none` means the
engine rejects the batch). -/
structure FileSpec where
  readable : Bool
  effect : DB → Option DB

/-- `DatabaseCLI.execute_sql_file` (cli.py lines 44-57): read the whole
file, execute it as one batch, commit on success; on any exception
(including the `open` failing before any SQL ran) roll back and return
`False`. -/
def execute_sql_file (f : FileSpec) (c : Conn) : Bool × Conn × List Event :=
  if f.readable then
    match f.effect c.pending with
    | some db1 => (true, ⟨db1, db1⟩, [Event.stmtBatch, Event.commit])
    | none => (false, ⟨c.committed, c.committed⟩, [Event.stmtBatch, Event.rollback])
  else
    (false, ⟨c.committed, c.committed⟩, [Event.rollback])

/-- `DatabaseCLI.migrate` (cli.py lines 59-103).  `schemaExists` is
`os.path.exists(schema_path)` (checked before connecting), `connectOk` the
outcome of `connect()`, `dropExists` is `os.path.exists(drop_all_path)`.
Each file runs through `execute_sql_file`, hence in its own transaction;
`disconnect` is in a `finally` block that guards only the part after a
successful `connect`. -/
def migrate (schemaExists connectOk dropExists : Bool)
    (dropFile schemaFile : FileSpec) (db : DB) : CmdResult :=
  if !schemaExists then
    ⟨false, db, []⟩
  else if !connectOk then
    ⟨false, db, [Event.connectAttempt]⟩
  else
    let c0 : Conn := ⟨db, db⟩
    if dropExists then
      let r1 := execute_sql_file dropFile c0
      if !r1.1 then
        ⟨false, r1.2.1.committed,
          [Event.connectAttempt, Event.connected] ++ r1.2.2 ++ [Event.disconnect]⟩
      else
        let r2 := execute_sql_file schemaFile r1.2.1
        ⟨r2.1, r2.2.1.committed,
          [Event.connectAttempt, Event.connected] ++ r1.2.2 ++ r2.2.2 ++ [Event.disconnect]⟩
    else
      let r2 := execute_sql_file schemaFile c0
      ⟨r2.1, r2.2.1.committed,
        [Event.connectAttempt, Event.connected] ++ r2.2.2 ++ [Event.disconnect]⟩

/-- `DROP TABLE IF EXISTS <name> CASCADE`: removes the named table from the
catalog (a no-op when absent, which is what `IF EXISTS` guarantees). -/
def dropTable (db : DB) (t : String) : DB :=
  { db with tables := db.tables.erase t }

/-- `DROP TYPE IF EXISTS <name> CASCADE` on an enum type. -/
def dropType (db : DB) (t : String) : DB :=
  { db with enumTypes := db.enumTypes.erase t }

/-- `DatabaseCLI.reset` (cli.py lines 105-154): connect, enumerate
`pg_tables` for the public schema; if the list is empty return `True`
immediately (no further statement, no commit); otherwise drop each listed
table, then enumerate the public enum types and drop each, then do the one
commit.  `disconnect` runs in the `finally` block after a successful
connect. -/
def reset (connectOk : Bool) (db : DB) : CmdResult :=
  if !connectOk then
    ⟨false, db, [Event.connectAttempt]⟩
  else
    let tables := db.tables
    if tables.isEmpty then
      ⟨true, db, [Event.connectAttempt, Event.connected, Event.stmtQuery, Event.disconnect]⟩
    else
      let db1 := tables.foldl dropTable db
      let types := db1.enumTypes
      let db2 := types.foldl dropType db1
      ⟨true, db2,
        [Event.connectAttempt, Event.connected, Event.stmtQuery]
          ++ tables.map Event.stmtDropTable
          ++ [Event.stmtQuery]
          ++ types.map Event.stmtDropType
          ++ [Event.commit, Event.disconnect]⟩

/-- `DatabaseCLI.status` (cli.py lines 156-208): connect, then a sequence
of read-only queries only: `SELECT version()`, the `pg_tables` listing, one
`SELECT COUNT(*)` per listed table, and the enum-type listing.  `queryFails`
models the exception path (some query raising): the handler prints and
returns `False` with no commit and no rollback; `finally` disconnects. -/
def status (connectOk queryFails : Bool) (db : DB) : CmdResult :=
  if !connectOk then
    ⟨false, db, [Event.connectAttempt]⟩
  else if queryFails then
    ⟨false, db, [Event.connectAttempt, Event.connected, Event.stmtQuery, Event.disconnect]⟩
  else
    ⟨true, db,
      [Event.connectAttempt, Event.connected, Event.stmtQuery, Event.stmtQuery]
        ++ db.tables.map (fun _ => Event.stmtQuery)
        ++ [Event.stmtQuery, Event.disconnect]⟩

/-- The hardcoded `sample_users` list of `DatabaseCLI.seed`
(cli.py lines 219-224): (username, email, password, user_type). -/
def sample_users : List (String × String × String × String) :=
  [("customer1", "customer1@example.com", "password123", "customer"),
   ("vendor1", "vendor1@example.com", "password123", "vendor"),
   ("driver1", "driver1@example.com", "password123", "driver"),
   ("admin1", "admin1@example.com", "password123", "admin")]

/-- Whether some `users` row already has the given username
(the `ON CONFLICT (username)` condition). -/
def hasUsername (db : DB) (u : String) : Bool :=
  db.users.any (fun r => r.username == u)

/-- `INSERT INTO users ... ON CONFLICT (username) DO NOTHING RETURNING id`:
returns the generated id when a row was inserted, `none` on conflict-skip. -/
def insertUser (db : DB) (username email phash utype : String) :
    Option Nat × DB :=
  if hasUsername db username then
    (none, db)
  else
    (some db.nextUserId,
      { db with
          users := db.users ++ [⟨db.nextUserId, username, email, phash, utype⟩],
          nextUserId := db.nextUserId + 1 })

/-- The `elif` chain on `user_type` inside the `seed` loop (cli.py lines
244-266): insert the role-specific profile row for the just-created user id
(placeholder names as in the code; an unrecognised type inserts nothing). -/
def profileInsert (uid : Nat) (username utype : String) (db : DB) :
    DB × List Event :=
  if utype == "customer" then
    ({ db with customers :=
        db.customers ++ [⟨uid, "Customer " ++ username, "+1234567890"⟩] },
     [Event.stmtInsert "customers"])
  else if utype == "vendor" then
    ({ db with vendors :=
        db.vendors ++ [⟨uid, "Business " ++ username, "+1234567890", "New York"⟩] },
     [Event.stmtInsert "vendors"])
  else if utype == "driver" then
    ({ db with drivers :=
        db.drivers ++ [⟨uid, "Driver " ++ username, "+1234567890", "Car"⟩] },
     [Event.stmtInsert "drivers"])
  else if utype == "admin" then
    ({ db with admins :=
        db.admins ++ [⟨uid, "Admin " ++ username, "System Administrator"⟩] },
     [Event.stmtInsert "admins"])
  else
    (db, [])

/-- The body of one iteration of the `seed` loop (cli.py lines 227-266):
hash the password, run the users insert, and only if an id came back
(`if result:`) insert the role-specific profile row. -/
def seedStep (phash : String) (db : DB)
    (t : String × String × String × String) : DB × List Event :=
  match insertUser db t.1 t.2.1 phash t.2.2.2 with
  | (none, db1) => (db1, [Event.stmtInsert "users"])
  | (some uid, db1) =>
      let p := profileInsert uid t.1 t.2.2.2 db1
      (p.1, Event.stmtInsert "users" :: p.2)

/-- The `seed` loop over `sample_users`, with index `i` counting iterations.
`hash i pw` is the bcrypt hash of `pw` with the fresh salt drawn at call
`i`.  `failAt = some j` models an exception raised while processing tuple
`j` (e.g. a missing profile table): the loop stops there, result `none`;
events before the exception are kept in the trace. -/
def seedGo (hash : Nat → String → String) (failAt : Option Nat) :
    Nat → List (String × String × String × String) → DB →
    Option DB × List Event
  | _, [], db => (some db, [])
  | i, t :: rest, db =>
      if failAt == some i then
        (none, [])
      else
        let s := seedStep (hash i t.2.2.1) db t
        let r := seedGo hash failAt (i + 1) rest s.1
        (r.1, s.2 ++ r.2)

/-- `DatabaseCLI.seed` (cli.py lines 210-281): connect, process the four
sample users, then the single `commit`; on an exception anywhere in the
batch, `rollback` (the committed state stays the input state) and return
`False`; `finally` disconnects. -/
def seed (connectOk : Bool) (hash : Nat → String → String)
    (failAt : Option Nat) (db : DB) : CmdResult :=
  if !connectOk then
    ⟨false, db, [Event.connectAttempt]⟩
  else
    let r := seedGo hash failAt 0 sample_users db
    match r.1 with
    | some db1 =>
        ⟨true, db1,
          [Event.connectAttempt, Event.connected] ++ r.2
            ++ [Event.commit, Event.disconnect]⟩
    | none =>
        ⟨false, db,
          [Event.connectAttempt, Event.connected] ++ r.2
            ++ [Event.rollback, Event.disconnect]⟩

/-- Python's `str.lower()` as used on the confirmation response: lowercase
every character (ASCII case folding, which covers the inputs the prompt
compares against). -/
def strLower (s : String) : String := ⟨s.data.map Char.toLower⟩

/-- The orphan-detection query (cli.py lines 292-304): menus with no
`restaurant_menus` row referencing them (`LEFT JOIN ... WHERE rm.menu_id IS
NULL`; the `ORDER BY created_at DESC` only affects display order). -/
def orphanQuery (db : DB) : List MenuRow :=
  db.menus.filter (fun m => !db.restaurant_menus.any (fun rm => rm.menu_id == m.id))

/-- The one-statement deletion (cli.py lines 333-341): `DELETE FROM menus
WHERE id IN (<the orphan-detection subquery>)` — only menus with at least
one association row survive. -/
def deleteOrphans (db : DB) : DB :=
  { db with
      menus := db.menus.filter
        (fun m => db.restaurant_menus.any (fun rm => rm.menu_id == m.id)) }

/-- `DatabaseCLI.cleanup_orphaned_menus` (cli.py lines 283-381): connect,
run the orphan query; if empty, report clean and return `True`; if
`dry_run`, report and return `True` with no mutation; otherwise prompt —
`response` is the operator's input, and the code proceeds exactly when
`response.lower() == "yes"` — then delete the orphans in one statement,
commit, and run the verification count and statistics queries. -/
def cleanup_orphaned_menus (connectOk dry_run : Bool) (response : String)
    (db : DB) : CmdResult :=
  if !connectOk then
    ⟨false, db, [Event.connectAttempt]⟩
  else
    let orphans := orphanQuery db
    if orphans.isEmpty then
      ⟨true, db, [Event.connectAttempt, Event.connected, Event.stmtQuery, Event.disconnect]⟩
    else if dry_run then
      ⟨true, db, [Event.connectAttempt, Event.connected, Event.stmtQuery, Event.disconnect]⟩
    else if strLower response != "yes" then
      ⟨false, db, [Event.connectAttempt, Event.connected, Event.stmtQuery, Event.disconnect]⟩
    else
      let db1 := deleteOrphans db
      ⟨true, db1,
        [Event.connectAttempt, Event.connected, Event.stmtQuery, Event.stmtDelete,
         Event.commit, Event.stmtQuery, Event.stmtQuery, Event.disconnect]⟩

/-- The five CLI commands of `main` (cli.py line 386). -/
inductive Cmd where
  | migrateCmd
  | resetCmd
  | statusCmd
  | seedCmd
  | cleanupCmd
deriving DecidableEq, Repr

/-- Everything external to the program that a run can observe: the
`DATABASE_URL` environment variable, whether `connect()` succeeds, the
database state, the schema/drop files, the seed hash salts and exception
point, the status exception flag, and the operator's typed response. -/
structure World where
  envDatabaseUrl : Option String
  connectOk : Bool
  db : DB
  schemaExists : Bool
  dropExists : Bool
  dropFile : FileSpec
  schemaFile : FileSpec
  hash : Nat → String → String
  seedFailAt : Option Nat
  statusQueryFails : Bool
  response : String

/-- `main` (cli.py lines 384-416): construct `DatabaseCLI(db_url=args.db_url)`
— whose `__init__` falls back to `DATABASE_URL` and raises `ValueError`
when both are absent, caught by `main`'s handler which prints the error and
exits 1 before any command (and hence any connection attempt) runs —
then dispatch on the command and exit 0 on `True`, 1 on `False`.
`dbUrlArg` is `--db-url`, `executeFlag` is `--execute` (cleanup runs with
`dry_run = not execute`).  Returns (exit code, event trace). -/
def mainRun (cmd : Cmd) (dbUrlArg : Option String) (executeFlag : Bool)
    (w : World) : Nat × List Event :=
  match dbUrlArg.orElse (fun _ => w.envDatabaseUrl) with
  | none => (1, [Event.configError])
  | some _ =>
      let r : CmdResult :=
        match cmd with
        | .migrateCmd =>
            migrate w.schemaExists w.connectOk w.dropExists w.dropFile w.schemaFile w.db
        | .resetCmd => reset w.connectOk w.db
        | .statusCmd => status w.connectOk w.statusQueryFails w.db
        | .seedCmd => seed w.connectOk w.hash w.seedFailAt w.db
        | .cleanupCmd =>
            cleanup_orphaned_menus w.connectOk (!executeFlag) w.response w.db
      (if r.ok then 0 else 1, r.events)

/-- Total number of role-profile rows across the four profile tables. -/
def profileCount (db : DB) : Nat :=
  db.customers.length + db.vendors.length + db.drivers.length + db.admins.length

/-- A database with nothing in it, for concrete instantiations. -/
def emptyDb : DB := ⟨[], [], [], [], [], [], [], [], [], 0⟩

/-- A database whose `menus` table holds one orphaned menu (id 1, no
`restaurant_menus` row) and one assigned menu (id 2). -/
def twoMenusDb : DB :=
  { emptyDb with
      menus := [⟨1, "m1", none, 5⟩, ⟨2, "m2", some 7, 6⟩],
      restaurant_menus := [⟨1, 2⟩] }

/-- A database with one enum type and no tables, for concrete instantiations. -/
def typesOnlyDb : DB := { emptyDb with enumTypes := ["order_status"] }

/-- A database with one table and one enum type, for concrete
instantiations. -/
def oneTableDb : DB :=
  { emptyDb with tables := ["users"], enumTypes := ["order_status"] }

/-- A concrete stand-in for the bcrypt hash function. -/
def exampleHash : Nat → String → String := fun i pw => pw ++ toString i

/-- A drop file whose batch empties the table catalog. -/
def exampleDropFile : FileSpec := ⟨true, fun d => some { d with tables := [] }⟩

/-- A schema file whose `open` fails. -/
def unreadableFile : FileSpec := ⟨false, fun _ => none⟩

/-! ## Helper lemmas -/

theorem foldl_erase_self (l : List String) :
    l.foldl (fun acc t => acc.erase t) l = [] := by
  induction l with
  | nil => rfl
  | cons a l ih =>
      rw [List.foldl_cons, List.erase_cons_head]
      exact ih

theorem foldl_dropTable_tables (ts : List String) (db : DB) :
    (ts.foldl dropTable db).tables = ts.foldl (fun acc t => acc.erase t) db.tables := by
  induction ts generalizing db with
  | nil => rfl
  | cons a ts ih => simp [List.foldl_cons, ih, dropTable]

theorem foldl_dropTable_enumTypes (ts : List String) (db : DB) :
    (ts.foldl dropTable db).enumTypes = db.enumTypes := by
  induction ts generalizing db with
  | nil => rfl
  | cons a ts ih => simp [List.foldl_cons, ih, dropTable]

theorem foldl_dropType_enumTypes (ts : List String) (db : DB) :
    (ts.foldl dropType db).enumTypes =
      ts.foldl (fun acc t => acc.erase t) db.enumTypes := by
  induction ts generalizing db with
  | nil => rfl
  | cons a ts ih => simp [List.foldl_cons, ih, dropType]

theorem count_disconnect_map_dropTable (ts : List String) :
    (ts.map Event.stmtDropTable).count Event.disconnect = 0 := by
  simp [List.count_eq_zero]

theorem count_disconnect_map_dropType (ts : List String) :
    (ts.map Event.stmtDropType).count Event.disconnect = 0 := by
  simp [List.count_eq_zero]

theorem count_commit_map_dropTable (ts : List String) :
    (ts.map Event.stmtDropTable).count Event.commit = 0 := by
  simp [List.count_eq_zero]

theorem count_commit_map_dropType (ts : List String) :
    (ts.map Event.stmtDropType).count Event.commit = 0 := by
  simp [List.count_eq_zero]

theorem profileInsert_events_insert (uid : Nat) (username utype : String) (db : DB) :
    ∀ e ∈ (profileInsert uid username utype db).2, ∃ s, e = Event.stmtInsert s := by
  unfold profileInsert
  split <;> (try split) <;> (try split) <;> (try split) <;>
    (intro e he; simp at he) <;> exact ⟨_, he⟩

theorem seedStep_events_insert (ph : String) (db : DB)
    (t : String × String × String × String) :
    ∀ e ∈ (seedStep ph db t).2, ∃ s, e = Event.stmtInsert s := by
  unfold seedStep
  split
  · intro e he
    simp at he
    exact ⟨"users", he⟩
  · intro e he
    simp only [List.mem_cons] at he
    rcases he with h | h
    · exact ⟨"users", h⟩
    · exact profileInsert_events_insert _ _ _ _ e h

theorem seedGo_events_insert (hash : Nat → String → String)
    (failAt : Option Nat) :
    ∀ (ts : List (String × String × String × String)) (i : Nat) (db : DB),
      ∀ e ∈ (seedGo hash failAt i ts db).2, ∃ s, e = Event.stmtInsert s := by
  intro ts
  induction ts with
  | nil => intro i db e he; simp [seedGo] at he
  | cons t rest ih =>
      intro i db e he
      rw [seedGo] at he
      split at he
      · simp at he
      · simp only [List.mem_append] at he
        rcases he with h | h
        · exact seedStep_events_insert _ db t e h
        · exact ih (i + 1) _ e h

theorem count_eq_zero_of_forall_insert (es : List Event) (ev : Event)
    (h : ∀ e ∈ es, ∃ s, e = Event.stmtInsert s)
    (hne : ∀ s, ev ≠ Event.stmtInsert s) : es.count ev = 0 := by
  rw [List.count_eq_zero]
  intro hmem
  obtain ⟨s, hs⟩ := h ev hmem
  exact hne s hs

/-! ## Claim theorems -/

/-- C10: `execute_sql_file` rolls back for every failure — both when the
file cannot be opened (before any SQL ran: the trace is the bare rollback)
and when the engine rejects the batch — and returns failure in both
cases. -/
theorem execute_sql_file_rollback_on_failure (f : FileSpec) (c : Conn) :
    (f.readable = false →
      execute_sql_file f c = (false, ⟨c.committed, c.committed⟩, [Event.rollback])) ∧
    (f.readable = true → f.effect c.pending = none →
      execute_sql_file f c =
        (false, ⟨c.committed, c.committed⟩, [Event.stmtBatch, Event.rollback])) := by
  constructor
  · intro h
    simp [execute_sql_file, h]
  · intro h he
    simp [execute_sql_file, h, he]

/-- Witness for C10: an unreadable file makes `execute_sql_file` roll back
and fail. -/
theorem execute_sql_file_rollback_on_failure_witness :
    execute_sql_file unreadableFile ⟨emptyDb, emptyDb⟩ =
      (false, ⟨emptyDb, emptyDb⟩, [Event.rollback]) :=
  (execute_sql_file_rollback_on_failure unreadableFile ⟨emptyDb, emptyDb⟩).1 rfl

/-- C6: in `migrate` each file runs in its own transaction: when the drop
file succeeds (its effect `db1` is committed) and the schema file then
fails (unreadable or rejected), `migrate` returns failure but the final
committed state is still `db1` — the drop is not undone; the trace shows
the drop's commit and the schema failure's rollback. -/
theorem migrate_keeps_drop_when_schema_fails
    (dropFile schemaFile : FileSpec) (db db1 : DB)
    (hr : dropFile.readable = true) (he : dropFile.effect db = some db1)
    (hs : schemaFile.readable = false ∨ schemaFile.effect db1 = none) :
    (migrate true true true dropFile schemaFile db).ok = false ∧
    (migrate true true true dropFile schemaFile db).db = db1 ∧
    (migrate true true true dropFile schemaFile db).events.count Event.commit = 1 ∧
    (migrate true true true dropFile schemaFile db).events.count Event.rollback = 1 := by
  rcases hs with h | h
  · simp [migrate, execute_sql_file, hr, he, h, List.count_cons]
  · cases hsr : schemaFile.readable <;>
      simp [migrate, execute_sql_file, hr, he, h, hsr, List.count_cons]

/-- Witness for C6: a drop file that empties the catalog followed by an
unreadable schema file leaves the drop committed. -/
theorem migrate_keeps_drop_when_schema_fails_witness :
    (migrate true true true exampleDropFile unreadableFile typesOnlyDb).ok = false ∧
    (migrate true true true exampleDropFile unreadableFile typesOnlyDb).db =
      { typesOnlyDb with tables := [] } ∧
    (migrate true true true exampleDropFile unreadableFile
      typesOnlyDb).events.count Event.commit = 1 ∧
    (migrate true true true exampleDropFile unreadableFile
      typesOnlyDb).events.count Event.rollback = 1 :=
  migrate_keeps_drop_when_schema_fails exampleDropFile unreadableFile typesOnlyDb
    { typesOnlyDb with tables := [] } rfl rfl (Or.inl rfl)

/-- C7: `cleanup_orphaned_menus` in dry-run mode (the default) returns
success and leaves the database unchanged for every database state — the
trace holds only the orphan query, never a DELETE, a commit or a
rollback. -/
theorem cleanup_dry_run_no_mutation (response : String) (db : DB) :
    cleanup_orphaned_menus true true response db =
      ⟨true, db, [Event.connectAttempt, Event.connected, Event.stmtQuery,
        Event.disconnect]⟩ := by
  unfold cleanup_orphaned_menus
  cases h : (orphanQuery db).isEmpty <;> simp [h]

/-- C9: `status` is read-only on every path (connect failure, query
exception, success): the database is unchanged and the trace holds no
commit, no rollback and no mutating statement. -/
theorem status_never_mutates (connectOk queryFails : Bool) (db : DB) :
    (status connectOk queryFails db).db = db ∧
    Event.commit ∉ (status connectOk queryFails db).events ∧
    Event.rollback ∉ (status connectOk queryFails db).events ∧
    (status connectOk queryFails db).events.all (fun e => !e.isMutation) = true := by
  cases connectOk <;> cases queryFails <;>
    simp [status, Event.isMutation, List.mem_map, List.all_map, Function.comp]

/-- C8: with `DATABASE_URL` unset and no `--db-url`, `main` exits with
code 1 after the configuration error, for every command and world — in
particular no connection attempt appears in the trace. -/
theorem main_missing_dburl_exits_one (cmd : Cmd) (executeFlag : Bool) (w : World) :
    mainRun cmd none executeFlag { w with envDatabaseUrl := none } =
      (1, [Event.configError]) ∧
    Event.connectAttempt ∉
      (mainRun cmd none executeFlag { w with envDatabaseUrl := none }).2 := by
  have h1 : mainRun cmd none executeFlag { w with envDatabaseUrl := none } =
      (1, [Event.configError]) := rfl
  refine ⟨h1, ?_⟩
  rw [h1]
  decide

theorem foldl_dropType_tables (ts : List String) (db : DB) :
    (ts.foldl dropType db).tables = db.tables := by
  induction ts generalizing db with
  | nil => rfl
  | cons a ts ih => simp [List.foldl_cons, ih, dropType]

/-- C2 counterexample: on a database with no tables but one enum type,
`reset` returns success yet performs no drop and no commit, and the enum
type is still there afterwards — the early return taken when the table
list is empty skips the whole enum-type phase. -/
theorem reset_counterexample :
    (reset true typesOnlyDb).ok = true ∧
    (reset true typesOnlyDb).db.enumTypes = ["order_status"] ∧
    (reset true typesOnlyDb).events.count Event.commit = 0 := by
  decide

/-- C2 (amended): on every starting database with at least one table, a
successful `reset` drops every table, then every enum type, with a single
commit, leaving zero tables and zero enum types in the public schema.
(When no tables exist, `reset` returns success immediately without touching
enum types.) -/
theorem reset_drops_all_tables_and_types (db : DB) (h : db.tables ≠ []) :
    (reset true db).ok = true ∧
    (reset true db).db.tables = [] ∧
    (reset true db).db.enumTypes = [] ∧
    (reset true db).events.count Event.commit = 1 := by
  have hne : db.tables.isEmpty = false := by
    cases hT : db.tables with
    | nil => exact absurd hT h
    | cons a ts => rfl
  refine ⟨?_, ?_, ?_, ?_⟩
  · simp [reset, hne]
  · simp [reset, hne, foldl_dropType_tables, foldl_dropTable_tables, foldl_erase_self]
  · simp [reset, hne, foldl_dropType_enumTypes, foldl_erase_self]
  · simp [reset, hne, List.count_append, List.count_cons,
      count_commit_map_dropTable, count_commit_map_dropType]

/-- Witness for C2 (amended): a database with one table and one enum type
ends up with empty catalogs and exactly one commit. -/
theorem reset_drops_all_tables_and_types_witness :
    oneTableDb.tables ≠ [] ∧
    ((reset true oneTableDb).ok = true ∧
     (reset true oneTableDb).db.tables = [] ∧
     (reset true oneTableDb).db.enumTypes = [] ∧
     (reset true oneTableDb).events.count Event.commit = 1) :=
  ⟨by decide, reset_drops_all_tables_and_types oneTableDb (by decide)⟩

/-- C1 counterexample: with orphans present and dry_run off, the input
"YES" — which is not the literal string "yes" — still passes the
confirmation gate: the command returns success, executes the DELETE and
removes the orphaned menu, refuting the claim that every input other than
the literal "yes" aborts with failure and no deletion. -/
theorem cleanup_confirm_counterexample :
    (cleanup_orphaned_menus true false "YES" twoMenusDb).ok = true ∧
    Event.stmtDelete ∈ (cleanup_orphaned_menus true false "YES" twoMenusDb).events ∧
    (cleanup_orphaned_menus true false "YES" twoMenusDb).db.menus =
      [⟨2, "m2", some 7, 6⟩] := by
  decide

/-- C1 (amended): with dry_run off and orphans present, the inputs that
proceed to deletion are exactly those whose lowercased form is "yes"
(the code compares `response.lower()`, so e.g. "YES" and "Yes" proceed);
every input whose lowercased form differs from "yes" aborts with failure,
no deletion and an unchanged database. -/
theorem cleanup_confirm_gate (response : String) (db : DB)
    (h : (orphanQuery db).isEmpty = false) :
    (strLower response = "yes" →
      (cleanup_orphaned_menus true false response db).ok = true ∧
      (cleanup_orphaned_menus true false response db).db = deleteOrphans db ∧
      Event.stmtDelete ∈ (cleanup_orphaned_menus true false response db).events) ∧
    (strLower response ≠ "yes" →
      cleanup_orphaned_menus true false response db =
        ⟨false, db, [Event.connectAttempt, Event.connected, Event.stmtQuery,
          Event.disconnect]⟩) := by
  constructor
  · intro hr
    simp [cleanup_orphaned_menus, h, hr]
  · intro hr
    simp [cleanup_orphaned_menus, h, bne_iff_ne, hr]

/-- Witness for C1 (amended): on a database with one orphaned menu, the
response "no" aborts with failure and no change. -/
theorem cleanup_confirm_gate_witness :
    cleanup_orphaned_menus true false "no" twoMenusDb =
      ⟨false, twoMenusDb, [Event.connectAttempt, Event.connected, Event.stmtQuery,
        Event.disconnect]⟩ :=
  (cleanup_confirm_gate "no" twoMenusDb (by decide)).2 (by decide)

theorem seedGo_none_isSome (hash : Nat → String → String) :
    ∀ (ts : List (String × String × String × String)) (i : Nat) (db : DB),
      ∃ db1, (seedGo hash none i ts db).1 = some db1 := by
  intro ts
  induction ts with
  | nil => intro i db; exact ⟨db, rfl⟩
  | cons t rest ih =>
      intro i db
      obtain ⟨db1, h1⟩ := ih (i + 1) (seedStep (hash i t.2.2.1) db t).1
      refine ⟨db1, ?_⟩
      rw [seedGo]
      simp [h1]

theorem seedGo_fail_none (hash : Nat → String → String) :
    ∀ (ts : List (String × String × String × String)) (i j : Nat) (db : DB),
      i ≤ j → j < i + ts.length →
      (seedGo hash (some j) i ts db).1 = none := by
  intro ts
  induction ts with
  | nil =>
      intro i j db hle hlt
      simp at hlt
      omega
  | cons t rest ih =>
      intro i j db hle hlt
      rw [seedGo]
      by_cases hji : j = i
      · simp [hji]
      · have hij : i + 1 ≤ j := by omega
        have hlt1 : j < (i + 1) + rest.length := by
          simp [List.length_cons] at hlt
          omega
        have hne : (some j == some i) = false := by
          simp [hji]
        simp only [hne, Bool.false_eq_true, if_false]
        simp [ih (i + 1) j _ hij hlt1]

/-- C4: `seed` commits exactly once, after all four sample tuples are
processed; when an exception occurs while processing any of the four
tuples, the whole batch is rolled back — the committed database is exactly
the starting one, with zero commits and one rollback — so either all
effects of the run are committed together or none are. -/
theorem seed_single_commit_atomic (hash : Nat → String → String)
    (failAt : Option Nat) (db : DB) :
    (failAt = none →
      (seed true hash failAt db).ok = true ∧
      (seed true hash failAt db).events.count Event.commit = 1) ∧
    (∀ j, failAt = some j → j < 4 →
      (seed true hash failAt db).ok = false ∧
      (seed true hash failAt db).db = db ∧
      (seed true hash failAt db).events.count Event.commit = 0 ∧
      (seed true hash failAt db).events.count Event.rollback = 1) := by
  constructor
  · rintro rfl
    obtain ⟨db1, h1⟩ := seedGo_none_isSome hash sample_users 0 db
    have hins := seedGo_events_insert hash none sample_users 0 db
    have hc : (seedGo hash none 0 sample_users db).2.count Event.commit = 0 :=
      count_eq_zero_of_forall_insert _ _ hins (fun s h => Event.noConfusion h)
    constructor
    · simp [seed, h1]
    · simp [seed, h1, List.count_append, List.count_cons, hc]
  · rintro j rfl hj
    have h0 : (seedGo hash (some j) 0 sample_users db).1 = none := by
      apply seedGo_fail_none hash sample_users 0 j db (Nat.zero_le j)
      simpa [sample_users] using hj
    have hins := seedGo_events_insert hash (some j) sample_users 0 db
    have hc : (seedGo hash (some j) 0 sample_users db).2.count Event.commit = 0 :=
      count_eq_zero_of_forall_insert _ _ hins (fun s h => Event.noConfusion h)
    have hrb : (seedGo hash (some j) 0 sample_users db).2.count Event.rollback = 0 :=
      count_eq_zero_of_forall_insert _ _ hins (fun s h => Event.noConfusion h)
    refine ⟨?_, ?_, ?_, ?_⟩ <;>
      simp [seed, h0, List.count_append, List.count_cons, hc, hrb]

/-- Witness for C4: a run with no exception commits once; a run failing at
the third tuple leaves the empty database unchanged with one rollback. -/
theorem seed_single_commit_atomic_witness :
    ((seed true exampleHash none emptyDb).ok = true ∧
     (seed true exampleHash none emptyDb).events.count Event.commit = 1) ∧
    ((seed true exampleHash (some 2) emptyDb).ok = false ∧
     (seed true exampleHash (some 2) emptyDb).db = emptyDb ∧
     (seed true exampleHash (some 2) emptyDb).events.count Event.commit = 0 ∧
     (seed true exampleHash (some 2) emptyDb).events.count Event.rollback = 1) :=
  ⟨(seed_single_commit_atomic exampleHash none emptyDb).1 rfl,
   (seed_single_commit_atomic exampleHash (some 2) emptyDb).2 2 rfl (by decide)⟩

theorem hasUsername_insertUser (db : DB) (u e p ty : String) :
    hasUsername (insertUser db u e p ty).2 u = true := by
  unfold insertUser
  cases h : hasUsername db u
  · simp only [Bool.false_eq_true, if_false]
    unfold hasUsername
    simp [List.any_append]
  · simp only [if_true]
    exact h

theorem hasUsername_insertUser_mono (db : DB) (u e p ty v : String)
    (hv : hasUsername db v = true) :
    hasUsername (insertUser db u e p ty).2 v = true := by
  unfold insertUser
  cases h : hasUsername db u
  · simp only [Bool.false_eq_true, if_false]
    unfold hasUsername at hv ⊢
    simp [List.any_append, hv]
  · simp only [if_true]
    exact hv

theorem profileInsert_users (uid : Nat) (username utype : String) (db : DB) :
    (profileInsert uid username utype db).1.users = db.users := by
  unfold profileInsert
  split <;> (try split) <;> (try split) <;> (try split) <;> rfl

theorem seedStep_users (ph : String) (db : DB)
    (t : String × String × String × String) :
    (seedStep ph db t).1.users = (insertUser db t.1 t.2.1 ph t.2.2.2).2.users := by
  unfold seedStep
  split
  · rename_i db1 heq
    rw [heq]
  · rename_i uid db1 heq
    rw [heq]
    exact profileInsert_users uid t.1 t.2.2.2 db1

theorem hasUsername_seedStep_self (ph : String) (db : DB)
    (t : String × String × String × String) :
    hasUsername (seedStep ph db t).1 t.1 = true := by
  have h := hasUsername_insertUser db t.1 t.2.1 ph t.2.2.2
  unfold hasUsername at h ⊢
  rw [seedStep_users]
  exact h

theorem hasUsername_seedStep_mono (ph : String) (db : DB)
    (t : String × String × String × String) (v : String)
    (hv : hasUsername db v = true) :
    hasUsername (seedStep ph db t).1 v = true := by
  have h := hasUsername_insertUser_mono db t.1 t.2.1 ph t.2.2.2 v hv
  unfold hasUsername at h ⊢
  rw [seedStep_users]
  exact h

theorem seedGo_hasUsername_mono (hash : Nat → String → String) :
    ∀ (ts : List (String × String × String × String)) (i : Nat) (db db1 : DB)
      (v : String),
      (seedGo hash none i ts db).1 = some db1 →
      hasUsername db v = true → hasUsername db1 v = true := by
  intro ts
  induction ts with
  | nil =>
      intro i db db1 v hgo hv
      simp [seedGo] at hgo
      rwa [← hgo]
  | cons t rest ih =>
      intro i db db1 v hgo hv
      rw [seedGo] at hgo
      simp at hgo
      exact ih (i + 1) _ db1 v hgo
        (hasUsername_seedStep_mono (hash i t.2.2.1) db t v hv)

theorem seedGo_hasUsername_all (hash : Nat → String → String) :
    ∀ (ts : List (String × String × String × String)) (i : Nat) (db db1 : DB),
      (seedGo hash none i ts db).1 = some db1 →
      ∀ t ∈ ts, hasUsername db1 t.1 = true := by
  intro ts
  induction ts with
  | nil => intro i db db1 _ t ht; simp at ht
  | cons s rest ih =>
      intro i db db1 hgo t ht
      rw [seedGo] at hgo
      simp at hgo
      rcases List.mem_cons.mp ht with rfl | hmem
      · exact seedGo_hasUsername_mono hash rest (i + 1) _ db1 t.1 hgo
          (hasUsername_seedStep_self (hash i t.2.2.1) db t)
      · exact ih (i + 1) _ db1 hgo t hmem

theorem seedStep_skip (ph : String) (db : DB)
    (t : String × String × String × String)
    (h : hasUsername db t.1 = true) :
    seedStep ph db t = (db, [Event.stmtInsert "users"]) := by
  have hi : insertUser db t.1 t.2.1 ph t.2.2.2 = (none, db) := by
    simp [insertUser, h]
  unfold seedStep
  rw [hi]

theorem seedGo_skip (hash : Nat → String → String) :
    ∀ (ts : List (String × String × String × String)) (i : Nat) (db : DB),
      (∀ t ∈ ts, hasUsername db t.1 = true) →
      (seedGo hash none i ts db).1 = some db := by
  intro ts
  induction ts with
  | nil => intro i db _; rfl
  | cons t rest ih =>
      intro i db hall
      rw [seedGo]
      have hstep := seedStep_skip (hash i t.2.2.1) db t (hall t (List.mem_cons_self t rest))
      simp [hstep]
      exact ih (i + 1) db (fun s hs => hall s (List.mem_cons_of_mem t hs))

theorem profileCount_insertUser (db : DB) (u e p ty : String) :
    profileCount (insertUser db u e p ty).2 = profileCount db := by
  unfold insertUser
  cases h : hasUsername db u <;> simp [profileCount]

theorem profileCount_profileInsert (uid : Nat) (un ty : String) (db : DB)
    (hty : ty = "customer" ∨ ty = "vendor" ∨ ty = "driver" ∨ ty = "admin") :
    profileCount (profileInsert uid un ty db).1 = profileCount db + 1 := by
  rcases hty with rfl | rfl | rfl | rfl <;>
    simp [profileInsert, profileCount] <;> omega

theorem seedStep_profileCount (ph : String) (db : DB)
    (t : String × String × String × String)
    (hty : t.2.2.2 = "customer" ∨ t.2.2.2 = "vendor" ∨ t.2.2.2 = "driver" ∨
      t.2.2.2 = "admin") :
    profileCount (seedStep ph db t).1 =
      profileCount db +
        (if (insertUser db t.1 t.2.1 ph t.2.2.2).1.isSome then 1 else 0) := by
  have hpc := profileCount_insertUser db t.1 t.2.1 ph t.2.2.2
  unfold seedStep
  split
  · rename_i db1 heq
    rw [heq] at hpc ⊢
    simpa using hpc
  · rename_i uid db1 heq
    rw [heq] at hpc ⊢
    rw [profileCount_profileInsert uid t.1 t.2.2.2 db1 hty]
    simp [hpc]

/-- C5: a role-specific profile row is inserted exactly when the users
insert returned an id (for each sample tuple, the profile-row total grows
by one if the insert returned a row and by zero on a conflict-skip); and
running `seed` twice in succession leaves the second run a no-op on the
database — zero new users rows and zero new profile rows. -/
theorem seed_profile_iff_id_and_idempotent :
    (∀ (db : DB) (ph : String) (t : String × String × String × String),
      t ∈ sample_users →
      profileCount (seedStep ph db t).1 =
        profileCount db +
          (if (insertUser db t.1 t.2.1 ph t.2.2.2).1.isSome then 1 else 0)) ∧
    (∀ (hash hash2 : Nat → String → String) (db : DB),
      (seed true hash2 none (seed true hash none db).db).ok = true ∧
      (seed true hash2 none (seed true hash none db).db).db =
        (seed true hash none db).db) := by
  constructor
  · intro db ph t ht
    apply seedStep_profileCount
    simp only [sample_users, List.mem_cons, List.not_mem_nil, or_false] at ht
    rcases ht with rfl | rfl | rfl | rfl <;> simp
  · intro hash hash2 db
    obtain ⟨db1, h1⟩ := seedGo_none_isSome hash sample_users 0 db
    have hdb1 : (seed true hash none db).db = db1 := by
      simp [seed, h1]
    have hall : ∀ t ∈ sample_users, hasUsername db1 t.1 = true :=
      seedGo_hasUsername_all hash sample_users 0 db db1 h1
    have h2 : (seedGo hash2 none 0 sample_users db1).1 = some db1 :=
      seedGo_skip hash2 sample_users 0 db1 hall
    rw [hdb1]
    constructor <;> simp [seed, h2]

/-- Witness for C5: a concrete tuple from `sample_users` on the empty
database, and a concrete double run of `seed`. -/
theorem seed_profile_iff_id_and_idempotent_witness :
    (profileCount (seedStep "h0" emptyDb
        ("customer1", "customer1@example.com", "password123", "customer")).1 =
      profileCount emptyDb +
        (if (insertUser emptyDb "customer1" "customer1@example.com" "h0"
            "customer").1.isSome then 1 else 0)) ∧
    ((seed true exampleHash none (seed true exampleHash none emptyDb).db).ok = true ∧
     (seed true exampleHash none (seed true exampleHash none emptyDb).db).db =
       (seed true exampleHash none emptyDb).db) :=
  ⟨seed_profile_iff_id_and_idempotent.1 emptyDb "h0"
      ("customer1", "customer1@example.com", "password123", "customer") (by decide),
   seed_profile_iff_id_and_idempotent.2 exampleHash exampleHash emptyDb⟩

theorem execute_events_no_disconnect (f : FileSpec) (c : Conn) :
    (execute_sql_file f c).2.2.count Event.disconnect = 0 := by
  unfold execute_sql_file
  split
  · split <;> rfl
  · rfl

theorem count_disconnect_map_query (ts : List String) :
    (ts.map (fun _ => Event.stmtQuery)).count Event.disconnect = 0 := by
  simp [List.count_eq_zero]

/-- C3 counterexample: when `connect()` fails, the command returns `False`
without ever calling `disconnect` — zero disconnect events, not exactly
one: the `try/finally` that guarantees the disconnect only starts after a
successful connect (cli.py lines 109-110, 112, 153-154). -/
theorem disconnect_counterexample :
    (reset false emptyDb).ok = false ∧
    (reset false emptyDb).events.count Event.disconnect = 0 := by
  decide

/-- C3 (amended): `disconnect` is called exactly once whenever `connect()`
succeeded, on every outcome and exception path of every command; when
`connect()` fails — and in `migrate` also when the schema file is missing,
where the command returns before any connection attempt — `disconnect` is
never called. -/
theorem disconnect_scoped_to_successful_connect
    (dropExists : Bool) (dropFile schemaFile : FileSpec) (db : DB)
    (hash : Nat → String → String) (failAt : Option Nat)
    (queryFails dry_run : Bool) (response : String) :
    (migrate false true dropExists dropFile schemaFile db).events.count
      Event.disconnect = 0 ∧
    (migrate true false dropExists dropFile schemaFile db).events.count
      Event.disconnect = 0 ∧
    (migrate true true dropExists dropFile schemaFile db).events.count
      Event.disconnect = 1 ∧
    (reset false db).events.count Event.disconnect = 0 ∧
    (reset true db).events.count Event.disconnect = 1 ∧
    (status false queryFails db).events.count Event.disconnect = 0 ∧
    (status true queryFails db).events.count Event.disconnect = 1 ∧
    (seed false hash failAt db).events.count Event.disconnect = 0 ∧
    (seed true hash failAt db).events.count Event.disconnect = 1 ∧
    (cleanup_orphaned_menus false dry_run response db).events.count
      Event.disconnect = 0 ∧
    (cleanup_orphaned_menus true dry_run response db).events.count
      Event.disconnect = 1 := by
  refine ⟨rfl, rfl, ?_, rfl, ?_, rfl, ?_, rfl, ?_, rfl, ?_⟩
  · have hd := execute_events_no_disconnect dropFile ⟨db, db⟩
    cases dropExists
    · have hs := execute_events_no_disconnect schemaFile ⟨db, db⟩
      simp [migrate, List.count_append, List.count_cons, hs]
    · cases h1 : (execute_sql_file dropFile ⟨db, db⟩).1
      · simp [migrate, h1, List.count_append, List.count_cons, hd]
      · have hs := execute_events_no_disconnect schemaFile
          (execute_sql_file dropFile ⟨db, db⟩).2.1
        simp [migrate, h1, List.count_append, List.count_cons, hd, hs]
  · cases h : db.tables.isEmpty <;>
      simp [reset, h, List.count_append, List.count_cons,
        count_disconnect_map_dropTable, count_disconnect_map_dropType]
  · cases queryFails <;>
      simp [status, List.count_append, List.count_cons, count_disconnect_map_query,
        List.count_replicate]
  · have hsg : (seedGo hash failAt 0 sample_users db).2.count Event.disconnect = 0 :=
      count_eq_zero_of_forall_insert _ _
        (seedGo_events_insert hash failAt sample_users 0 db)
        (fun s h => Event.noConfusion h)
    cases h : (seedGo hash failAt 0 sample_users db).1 <;>
      simp [seed, h, List.count_append, List.count_cons, hsg]
  · cases h : (orphanQuery db).isEmpty
    · cases dry_run
      · simp [cleanup_orphaned_menus, h]
        split <;> rfl
      · simp [cleanup_orphaned_menus, h]
    · cases dry_run <;> simp [cleanup_orphaned_menus, h]
